import Mathlib

/-!
Shallow embedding of `src/fit_motion.cc` (pilotguru): IMU auto-calibration
against GPS reference speeds with a sliding window over the GPS samples,
per-timestamp averaging of the integrated velocity magnitudes, and a
steering-angle extraction from the gyroscope stream.

C++ doubles are modelled as real numbers (`ℝ`) for sensor data and as
rationals (`ℚ`) for the configuration flags that are only ever compared
against zero; `int64` flags are modelled as `Int`, `size_t` indices as `Nat`.
External collaborators that are not part of this repository's source
(the L-BFGS optimizer, `AccelerometerCalibrator::IntegrateTrajectory`,
`GetPrincipalRotationAxes`, `MergedEventTimeUsec`, `SmoothTimeSeries`,
JSON (de)serialization) enter as explicit function parameters, so every
theorem quantifies over their possible behaviours.
-/

namespace FitMotion

/-- A raw timestamped 3D sample (gyroscope rotation velocity or raw
acceleration): fields `x y z` plus a timestamp in integer microseconds.
Mirrors `pilotguru::TimestampedRotationVelocity` / `TimestampedAcceleration`
as consumed by `ReadTimestamp3DData`. -/
structure Timestamped3d where
  x : ℝ
  y : ℝ
  z : ℝ
  t : Int

/-- A GPS speed sample: scalar speed (m/s) plus timestamp in microseconds,
as produced by `ReadGpsVelocities`. -/
structure TimestampedVelocity where
  speed : ℝ
  t : Int

/-- A 3D vector, modelling `Eigen::Vector3d` (the integrated velocity of one
`MotionIntegrationOutcome`). -/
structure Vec3 where
  x : ℝ
  y : ℝ
  z : ℝ

/-- Euclidean norm, modelling `Eigen::Vector3d::norm()` as called at
`fit_motion.cc:206` (`point.second.velocity.norm()`). -/
noncomputable def Vec3.norm (v : Vec3) : ℝ :=
  Real.sqrt (v.x ^ 2 + v.y ^ 2 + v.z ^ 2)

/-- The fatal error classes of the program: `configError` for the
`CHECK`s on the command-line flags (lines 115-124), `dataError` for the
`CHECK(!...empty())` in the two input readers (lines 84 and 99), and
`checkFailed` for the `CHECK_EQ(steering_angles.size(), rotations.size())`
at line 146. A fired `CHECK` aborts the process. -/
inductive FitError where
  | configError : FitError
  | dataError : FitError
  | checkFailed : FitError
deriving DecidableEq

/-- The command-line flags of `fit_motion.cc` (`DEFINE_string` /
`DEFINE_int64` / `DEFINE_double`). -/
structure Config where
  rotationsJson : String
  accelerationsJson : String
  locationsJson : String
  velocitiesOutJson : String
  steeringOutJson : String
  optimizationIters : ℚ
  locationsBatchSize : Int
  locationsShiftStep : Int
  postSmoothingSigmaSec : ℚ

/-- The numeric flag checks of `main` (`fit_motion.cc:120-124`):
`CHECK_GT(FLAGS_optimization_iters, 0)`, `CHECK_GT(FLAGS_locations_batch_size, 0)`,
`CHECK_GT(FLAGS_locations_shift_step, 0)`,
`CHECK_GE(FLAGS_locations_batch_size, FLAGS_locations_shift_step)`,
`CHECK_GT(FLAGS_post_smoothing_sigma_sec, 0)`. -/
def numericChecksOk (cfg : Config) : Bool :=
  decide (0 < cfg.optimizationIters) && decide (0 < cfg.locationsBatchSize) &&
    decide (0 < cfg.locationsShiftStep) &&
    decide (cfg.locationsShiftStep ≤ cfg.locationsBatchSize) &&
    decide (0 < cfg.postSmoothingSigmaSec)

/-- The full block of sanity checks of `main` (`fit_motion.cc:114-124`):
the five non-empty-filename `CHECK`s followed by the numeric checks. -/
def sanityChecksOk (cfg : Config) : Bool :=
  (!cfg.rotationsJson.isEmpty) && (!cfg.accelerationsJson.isEmpty) &&
    (!cfg.locationsJson.isEmpty) && (!cfg.velocitiesOutJson.isEmpty) &&
    (!cfg.steeringOutJson.isEmpty) && numericChecksOk cfg

/-- `ReadTimestamp3DData` (`fit_motion.cc:79-92`) modulo the external JSON
parsing: given the already-parsed list of entries, `CHECK(!entries_list.empty())`
aborts on an empty list, otherwise all entries are returned in order. -/
def readTimestamp3DData (entries : List Timestamped3d) :
    Except FitError (List Timestamped3d) :=
  if entries.isEmpty then Except.error FitError.dataError else Except.ok entries

/-- `ReadGpsVelocities` (`fit_motion.cc:94-106`) modulo the external JSON
parsing: `CHECK(!locations_json.empty())` aborts on an empty list, otherwise
all entries are returned in order. -/
def readGpsVelocities (entries : List TimestampedVelocity) :
    Except FitError (List TimestampedVelocity) :=
  if entries.isEmpty then Except.error FitError.dataError else Except.ok entries

/-- The start indices visited by the sliding-window loop
(`fit_motion.cc:167-169`): `for (size_t reference_start_idx = 0;
reference_start_idx < gps_velocities.size();
reference_start_idx += FLAGS_locations_shift_step)`. The loop-invariant
precondition `0 < stride` (established by `CHECK_GT` at line 122) is folded
into the guard to keep the function total. -/
def windowStartsAux (n stride : Nat) (start : Nat) : List Nat :=
  if _h : 0 < stride ∧ start < n then
    start :: windowStartsAux n stride (start + stride)
  else
    []
termination_by n - start
decreasing_by
  simp_wf
  omega

/-- All window start indices for a GPS stream of `n` samples and a shift
step of `stride`, beginning at index `0`. -/
def windowStarts (n stride : Nat) : List Nat :=
  windowStartsAux n stride 0

/-- The (exclusive) end index of the window starting at `start`
(`fit_motion.cc:170-172`): `std::min(reference_start_idx +
FLAGS_locations_batch_size, gps_velocities.size())`. -/
def windowEnd (start windowSize n : Nat) : Nat :=
  min (start + windowSize) n

/-- Lookup in an association list keyed by merged-timeline indices; models
key-based access into `std::map<size_t, ...>`. -/
def mapLookup {α : Type} : List (Nat × α) → Nat → Option α
  | [], _ => none
  | (k', v) :: rest, k => if k = k' then some v else mapLookup rest k

/-- `integrated_velocities[point.first].push_back(value)`
(`fit_motion.cc:205-206`): `std::map::operator[]` default-constructs an empty
vector for an absent key, then `push_back` appends the value at the end. -/
def mapPush {α : Type} : List (Nat × List α) → Nat → α → List (Nat × List α)
  | [], k, v => [(k, [v])]
  | (k', l) :: rest, k, v =>
      if k = k' then (k', l ++ [v]) :: rest else (k', l) :: mapPush rest k v

/-- One sliding window's contribution to the accumulator
(`fit_motion.cc:204-207`): for every point of the window's integrated
trajectory, the pair (merged-timeline index, velocity magnitude). -/
noncomputable def windowContrib (outcome : List (Nat × Vec3)) : List (Nat × ℝ) :=
  outcome.map (fun p => (p.1, p.2.norm))

/-- The `integrated_velocities` accumulator after processing a list of
per-window integration outcomes in order (`fit_motion.cc:166-208`): each
window's points are pushed into the per-index vectors. -/
noncomputable def accumulateAll (outcomes : List (List (Nat × Vec3))) :
    List (Nat × List ℝ) :=
  outcomes.foldl
    (fun m o => (windowContrib o).foldl (fun m' p => mapPush m' p.1 p.2) m) []

/-- All velocity magnitudes collected for merged-timeline index `k` across
a list of window outcomes, in processing order (declarative restatement of
what `accumulateAll` stores under key `k`). -/
noncomputable def collectedEstimates (outcomes : List (List (Nat × Vec3)))
    (k : Nat) : List ℝ :=
  ((outcomes.map windowContrib).flatten).filterMap
    (fun p => if p.1 = k then some p.2 else none)

/-- The full sliding-window accumulation of `fit_motion.cc:166-208` for a
GPS stream of `n` samples and shift step `stride`, where `integrateTraj s`
is the (external) `calibrator.IntegrateTrajectory` outcome for the window
starting at GPS index `s`. -/
noncomputable def integratedVelocities (n stride : Nat)
    (integrateTraj : Nat → List (Nat × Vec3)) : List (Nat × List ℝ) :=
  accumulateAll ((windowStarts n stride).map integrateTraj)

/-- The averaging stage (`fit_motion.cc:221-231`): for every entry of the
accumulator, the sum of its collected magnitudes divided by their count. -/
noncomputable def averageEstimates (m : List (Nat × List ℝ)) : List (Nat × ℝ) :=
  m.map (fun p => (p.1, p.2.sum / (p.2.length : ℝ)))

/-- Modelled from the spec: `GetHorizontalTurnAngles`
(`calibration/rotation.hpp`, not under `src/`). Per spec section 4.2, each
3D angular-velocity sample is projected onto the detected vertical axis and
the resulting in-plane angular velocity is accumulated over time into a
running heading angle, producing one angle per input sample in order.
`prevT` is the previous sample's timestamp (microseconds), `angle` the
running angle. -/
noncomputable def turnAnglesAux (axis : Vec3) : Int → ℝ → List Timestamped3d → List ℝ
  | _, _, [] => []
  | prevT, angle, r :: rest =>
      let dt : ℝ := ((r.t - prevT : Int) : ℝ) / 1000000
      let angleNew := angle + (r.x * axis.x + r.y * axis.y + r.z * axis.z) * dt
      angleNew :: turnAnglesAux axis r.t angleNew rest

/-- Modelled from the spec: `GetHorizontalTurnAngles` applied to the whole
rotation stream, starting the integration at the first sample's timestamp
with a zero initial heading. -/
noncomputable def getHorizontalTurnAngles (rotations : List Timestamped3d)
    (axis : Vec3) : List ℝ :=
  match rotations with
  | [] => []
  | r :: _ => turnAnglesAux axis r.t 0 rotations

/-- The steering output file contents (`fit_motion.cc:149-153`):
`JsonWriteTimestampedRealData(rotation_timestamps, steering_angles, ...)`
pairs the i-th rotation timestamp with the i-th steering angle. -/
noncomputable def steeringOutput (rotations : List Timestamped3d) (axis : Vec3) :
    List (Int × ℝ) :=
  (rotations.map Timestamped3d.t).zip (getHorizontalTurnAngles rotations axis)

/-- The observable outcome of one run of `main`: the contents of the two
output files (`none` = the file was never written) and the fatal error that
aborted the run, if any. -/
structure RunOutcome where
  steeringFile : Option (List (Int × ℝ))
  velocitiesFile : Option (List (Int × ℝ))
  fatal : Option FitError

/-- `main` of `fit_motion.cc:109-242` as a function of the parsed flag
values, the parsed JSON inputs, and the external collaborators:
`axis` stands for the principal rotation axis returned by
`GetPrincipalRotationAxes` (line 139-143), `integrateTraj s` for the
optimizer + `IntegrateTrajectory` outcome of the window starting at GPS
index `s` (lines 178-201), `mergedEventTimeUsec` for
`calibrator.ImuTimes().MergedEventTimeUsec` (line 223), and
`smoothTimeSeries` for `pilotguru::SmoothTimeSeries` (line 233).
The order of the branches mirrors the order of the aborting `CHECK`s in the
source: flag checks (114-124), input reads (127-134), the steering-size
check (146), the steering write (151), the sliding-window accumulation
(166-208), averaging (221-231), smoothing (233) and the velocity write (237). -/
noncomputable def runMain (cfg : Config)
    (rotEntries accEntries : List Timestamped3d)
    (gpsEntries : List TimestampedVelocity)
    (axis : Vec3)
    (integrateTraj : Nat → List (Nat × Vec3))
    (mergedEventTimeUsec : Nat → Int)
    (smoothTimeSeries : List ℝ → List ℝ → ℚ → List ℝ) : RunOutcome :=
  if sanityChecksOk cfg = true then
    match readTimestamp3DData rotEntries with
    | Except.error e => ⟨none, none, some e⟩
    | Except.ok rotations =>
      match readTimestamp3DData accEntries with
      | Except.error e => ⟨none, none, some e⟩
      | Except.ok _accelerations =>
        match readGpsVelocities gpsEntries with
        | Except.error e => ⟨none, none, some e⟩
        | Except.ok gps =>
          let steeringAngles := getHorizontalTurnAngles rotations axis
          if steeringAngles.length = rotations.length then
            let steeringFile := steeringOutput rotations axis
            let m := integratedVelocities gps.length
              cfg.locationsShiftStep.toNat integrateTraj
            let avg := averageEstimates m
            let timestampsUsec := avg.map (fun p => mergedEventTimeUsec p.1)
            let timestampsSec := timestampsUsec.map
              (fun t => ((t - timestampsUsec.headD 0 : Int) : ℝ) / 1000000)
            let smoothedVelocities := smoothTimeSeries (avg.map Prod.snd)
              timestampsSec cfg.postSmoothingSigmaSec
            ⟨some steeringFile, some (timestampsUsec.zip smoothedVelocities), none⟩
          else
            ⟨none, none, some FitError.checkFailed⟩
  else
    ⟨none, none, some FitError.configError⟩

/-! ### Helper lemmas: the sliding-window start indices -/

theorem windowStartsAux_unfold (n s start : Nat) :
    windowStartsAux n s start =
      if 0 < s ∧ start < n then start :: windowStartsAux n s (start + s) else [] := by
  rw [windowStartsAux]
  exact dite_eq_ite

theorem windowStartsAux_length (n s : Nat) (hs : 0 < s) :
    ∀ fuel start, n - start ≤ fuel →
      (windowStartsAux n s start).length = (n - start + s - 1) / s := by
  intro fuel
  induction fuel with
  | zero =>
      intro start hk
      rw [windowStartsAux_unfold]
      have hns : ¬(0 < s ∧ start < n) := by omega
      rw [if_neg hns]
      have h0 : n - start = 0 := by omega
      rw [h0]
      have hz : (s - 1) / s = 0 := Nat.div_eq_of_lt (by omega)
      simp [hz]
  | succ fuel ih =>
      intro start hk
      rw [windowStartsAux_unfold]
      by_cases hlt : start < n
      · rw [if_pos ⟨hs, hlt⟩]
        have hrec := ih (start + s) (by omega)
        simp only [List.length_cons, hrec]
        have hd1 : n - start + s - 1 = (n - start - 1) + s := by omega
        rw [hd1, Nat.add_div_right _ hs]
        by_cases hds : n - start ≤ s
        · have h1 : n - (start + s) = 0 := by omega
          have h2 : n - start - 1 < s := by omega
          rw [h1, Nat.div_eq_of_lt (by omega : 0 + s - 1 < s),
            Nat.div_eq_of_lt h2]
        · have h1 : n - (start + s) + s - 1 = (n - start - s - 1) + s := by omega
          have h2 : n - start - 1 = (n - start - s - 1) + s := by omega
          rw [h1, h2, Nat.add_div_right _ hs]
      · rw [if_neg (by omega)]
        have h0 : n - start = 0 := by omega
        rw [h0]
        have hz : (s - 1) / s = 0 := Nat.div_eq_of_lt (by omega)
        simp [hz]

theorem windowStarts_length (n s : Nat) (hs : 0 < s) :
    (windowStarts n s).length = (n + s - 1) / s := by
  have := windowStartsAux_length n s hs n 0 (by omega)
  simpa using this

theorem windowStartsAux_mem (n s : Nat) (hs : 0 < s) :
    ∀ (j start : Nat), start + s * j < n →
      start + s * j ∈ windowStartsAux n s start := by
  intro j
  induction j with
  | zero =>
      intro start hb
      rw [windowStartsAux_unfold, if_pos ⟨hs, by omega⟩]
      simp
  | succ j ih =>
      intro start hb
      have hmul : s * (j + 1) = s * j + s := Nat.mul_succ s j
      have hlt : start < n := by omega
      rw [windowStartsAux_unfold, if_pos ⟨hs, hlt⟩]
      have hrec := ih (start + s) (by omega)
      have h1 : start + s * (j + 1) = start + s + s * j := by omega
      rw [h1]
      exact List.mem_cons_of_mem _ hrec

theorem windowStarts_self (n : Nat) (hn : 0 < n) : windowStarts n n = [0] := by
  unfold windowStarts
  rw [windowStartsAux_unfold, if_pos ⟨hn, hn⟩]
  rw [windowStartsAux_unfold, if_neg (by omega)]

/-! ### Helper lemmas: the per-index accumulator -/

theorem mapLookup_mapPush {α : Type} (m : List (Nat × List α)) (a k : Nat) (v : α) :
    mapLookup (mapPush m a v) k =
      if k = a then some (((mapLookup m k).getD []) ++ [v]) else mapLookup m k := by
  induction m with
  | nil =>
      simp only [mapPush, mapLookup]
      split_ifs <;> simp [mapLookup]
  | cons hd tl ih =>
      obtain ⟨k', l⟩ := hd
      by_cases hak : a = k'
      · subst hak
        by_cases hk : k = a <;> simp [mapPush, mapLookup, hk]
      · by_cases hk : k = k'
        · subst hk
          have hka : ¬k = a := fun h => hak h.symm
          simp [mapPush, mapLookup, hak, hka]
        · simp [mapPush, mapLookup, hak, hk, ih]

theorem mapLookup_foldl_mapPush {α : Type} (ps : List (Nat × α))
    (m : List (Nat × List α)) (k : Nat) :
    (mapLookup (ps.foldl (fun m' p => mapPush m' p.1 p.2) m) k).getD [] =
      ((mapLookup m k).getD []) ++
        ps.filterMap (fun p => if p.1 = k then some p.2 else none) := by
  induction ps generalizing m with
  | nil => simp
  | cons p tl ih =>
      simp only [List.foldl_cons, List.filterMap_cons]
      rw [ih]
      by_cases hk : p.1 = k
      · rw [if_pos hk, mapLookup_mapPush, if_pos hk.symm]
        simp
      · rw [if_neg hk, mapLookup_mapPush, if_neg (fun h => hk h.symm)]

theorem mapLookup_foldl_mapPush_eq_none {α : Type} (ps : List (Nat × α))
    (m : List (Nat × List α)) (k : Nat) :
    mapLookup (ps.foldl (fun m' p => mapPush m' p.1 p.2) m) k = none ↔
      mapLookup m k = none ∧
        ps.filterMap (fun p => if p.1 = k then some p.2 else none) = [] := by
  induction ps generalizing m with
  | nil => simp
  | cons p tl ih =>
      simp only [List.foldl_cons, List.filterMap_cons]
      rw [ih, mapLookup_mapPush]
      by_cases hk : p.1 = k
      · rw [if_pos hk, if_pos hk.symm]
        simp
      · rw [if_neg hk, if_neg (fun h => hk h.symm)]

theorem accumulateAll_eq_foldl (outcomes : List (List (Nat × Vec3))) :
    accumulateAll outcomes =
      ((outcomes.map windowContrib).flatten).foldl
        (fun m' p => mapPush m' p.1 p.2) [] := by
  rw [List.foldl_flatten, List.foldl_map]
  rfl

theorem accumulateAll_lookup_getD (outcomes : List (List (Nat × Vec3))) (k : Nat) :
    (mapLookup (accumulateAll outcomes) k).getD [] = collectedEstimates outcomes k := by
  rw [accumulateAll_eq_foldl, mapLookup_foldl_mapPush]
  simp [collectedEstimates, mapLookup]

theorem accumulateAll_lookup_eq_none (outcomes : List (List (Nat × Vec3))) (k : Nat) :
    mapLookup (accumulateAll outcomes) k = none ↔
      collectedEstimates outcomes k = [] := by
  rw [accumulateAll_eq_foldl, mapLookup_foldl_mapPush_eq_none]
  simp [collectedEstimates, mapLookup]

theorem accumulateAll_lookup_some {outcomes : List (List (Nat × Vec3))} {k : Nat}
    {l : List ℝ} (h : mapLookup (accumulateAll outcomes) k = some l) :
    l = collectedEstimates outcomes k ∧ l ≠ [] := by
  have hg := accumulateAll_lookup_getD outcomes k
  rw [h] at hg
  simp only [Option.getD_some] at hg
  refine ⟨hg, fun hnil => ?_⟩
  have : mapLookup (accumulateAll outcomes) k = none :=
    (accumulateAll_lookup_eq_none outcomes k).mpr (hg ▸ hnil)
  rw [h] at this
  exact Option.noConfusion this

theorem mapLookup_averageEstimates (m : List (Nat × List ℝ)) (k : Nat) :
    mapLookup (averageEstimates m) k =
      (mapLookup m k).map (fun l => l.sum / (l.length : ℝ)) := by
  induction m with
  | nil => simp [averageEstimates, mapLookup]
  | cons hd tl ih =>
      obtain ⟨k', l⟩ := hd
      simp only [averageEstimates, List.map_cons, mapLookup]
      by_cases hk : k = k'
      · simp [hk]
      · simpa [hk, averageEstimates] using ih

theorem filterMap_single_of_nodup {α : Type} (l : List (Nat × α)) (k : Nat) (v : α)
    (hnd : (l.map Prod.fst).Nodup) (hm : (k, v) ∈ l) :
    l.filterMap (fun p => if p.1 = k then some p.2 else none) = [v] := by
  induction l with
  | nil => cases hm
  | cons hd tl ih =>
      obtain ⟨a, b⟩ := hd
      simp only [List.map_cons, List.nodup_cons] at hnd
      obtain ⟨hnotin, hndtl⟩ := hnd
      rcases List.mem_cons.mp hm with heq | htl
      · have hk : k = a := congrArg Prod.fst heq
        have hv : v = b := congrArg Prod.snd heq
        subst hk
        subst hv
        have htlnil : tl.filterMap (fun p => if p.1 = k then some p.2 else none) = [] := by
          rw [List.filterMap_eq_nil_iff]
          intro p hp
          have hne : ¬p.1 = k := by
            intro hpk
            exact hnotin (by rw [← hpk]; exact List.mem_map_of_mem Prod.fst hp)
          simp [hne]
        simp [List.filterMap_cons, htlnil]
      · have hak : ¬a = k := by
          intro hak
          exact hnotin (by rw [← hak] at htl; exact List.mem_map_of_mem Prod.fst htl)
        simp only [List.filterMap_cons, if_neg hak]
        exact ih hndtl htl

theorem collectedEstimates_nonneg (outcomes : List (List (Nat × Vec3))) (k : Nat) :
    ∀ x ∈ collectedEstimates outcomes k, 0 ≤ x := by
  intro x hx
  unfold collectedEstimates at hx
  obtain ⟨p, hp, hpx⟩ := List.mem_filterMap.mp hx
  by_cases hpk : p.1 = k
  · rw [if_pos hpk] at hpx
    obtain ⟨c, hc, hpc⟩ := List.mem_flatten.mp hp
    obtain ⟨o, _ho, rfl⟩ := List.mem_map.mp hc
    unfold windowContrib at hpc
    obtain ⟨q, _hq, rfl⟩ := List.mem_map.mp hpc
    obtain rfl := Option.some.inj hpx
    exact Real.sqrt_nonneg _
  · rw [if_neg hpk] at hpx
    cases hpx

theorem collectedEstimates_perm {outcomes₁ outcomes₂ : List (List (Nat × Vec3))}
    (hperm : outcomes₁.Perm outcomes₂) (k : Nat) :
    (collectedEstimates outcomes₁ k).Perm (collectedEstimates outcomes₂ k) := by
  unfold collectedEstimates
  exact ((hperm.map windowContrib).flatten).filterMap _

/-! ### Claim theorems -/

/-- Claim C1: for every GPS stream of `n ≥ 1` samples and every configuration
with `window_size ≥ stride > 0`, the sliding-window loop of
`fit_motion.cc:167-175` terminates after exactly `⌈n / stride⌉` iterations
(windows), and every GPS sample index in `[0, n)` belongs to at least one
window `[start, min (start + window_size) n)`. -/
theorem sliding_window_count_and_coverage (n windowSize stride : Nat)
    (hs : 0 < stride) (hw : stride ≤ windowSize) (_hn : 0 < n) :
    (windowStarts n stride).length = (n + stride - 1) / stride ∧
    ∀ i, i < n → ∃ start ∈ windowStarts n stride,
      start ≤ i ∧ i < windowEnd start windowSize n := by
  refine ⟨windowStarts_length n stride hs, ?_⟩
  intro i hi
  have hdm : stride * (i / stride) + i % stride = i := Nat.div_add_mod i stride
  have hmod : i % stride < stride := Nat.mod_lt i hs
  refine ⟨stride * (i / stride), ?_, by omega, ?_⟩
  · have hb : 0 + stride * (i / stride) < n := by omega
    simpa using windowStartsAux_mem n stride hs (i / stride) 0 hb
  · unfold windowEnd
    omega

/-- Witness for C1 at `n = 5`, `window_size = 3`, `stride = 2`: three
windows, every index covered. -/
theorem sliding_window_count_and_coverage_witness :
    (0 < 2 ∧ 2 ≤ 3 ∧ 0 < 5) ∧
    ((windowStarts 5 2).length = (5 + 2 - 1) / 2 ∧
      ∀ i, i < 5 → ∃ start ∈ windowStarts 5 2,
        start ≤ i ∧ i < windowEnd start 3 5) :=
  ⟨⟨by decide, by decide, by decide⟩,
    sliding_window_count_and_coverage 5 3 2 (by decide) (by decide) (by decide)⟩

/-- Claim C2 counterexample: `window_size = 2`, `stride = 1` is a valid
configuration (`0 < stride ≤ window_size`), and for a GPS stream of exactly
`window_size = 2` samples the orchestrator runs 2 windows, not exactly one
as the claim states. -/
theorem single_window_claim_counterexample :
    (0 < 1 ∧ 1 ≤ 2) ∧ (windowStarts 2 1).length = 2 ∧
      ¬((windowStarts 2 1).length = 1) := by
  have h := windowStarts_length 2 1 (by decide)
  norm_num at h
  exact ⟨⟨by decide, by decide⟩, h, by omega⟩

/-- Claim C2 (amended): for a GPS stream with exactly `window_size` samples
and stride equal to `window_size`, the orchestrator produces exactly one
sliding window, and every merged-timeline index covered by that window's
integration outcome (whose keys, coming from a `std::map`, are distinct)
ends with exactly one contributing estimate, so its averaged value equals
that single estimate. -/
theorem single_window_single_estimate (n : Nat) (hn : 0 < n)
    (integrateTraj : Nat → List (Nat × Vec3))
    (hnd : ((integrateTraj 0).map Prod.fst).Nodup)
    (k : Nat) (v : Vec3) (hkv : (k, v) ∈ integrateTraj 0) :
    (windowStarts n n).length = 1 ∧
    mapLookup (integratedVelocities n n integrateTraj) k = some [v.norm] ∧
    mapLookup (averageEstimates (integratedVelocities n n integrateTraj)) k
      = some v.norm := by
  have hws : windowStarts n n = [0] := windowStarts_self n hn
  have hiv : integratedVelocities n n integrateTraj =
      accumulateAll [integrateTraj 0] := by
    unfold integratedVelocities
    rw [hws]
    rfl
  have hkeys : ((windowContrib (integrateTraj 0)).map Prod.fst).Nodup := by
    unfold windowContrib
    rw [List.map_map]
    exact hnd
  have hmem : (k, v.norm) ∈ windowContrib (integrateTraj 0) :=
    List.mem_map_of_mem (fun p => (p.1, p.2.norm)) hkv
  have hcol : collectedEstimates [integrateTraj 0] k = [v.norm] := by
    unfold collectedEstimates
    simp only [List.map_cons, List.map_nil, List.flatten_cons, List.flatten_nil,
      List.append_nil]
    exact filterMap_single_of_nodup _ k v.norm hkeys hmem
  have hlk : mapLookup (accumulateAll [integrateTraj 0]) k = some [v.norm] := by
    cases hl : mapLookup (accumulateAll [integrateTraj 0]) k with
    | none =>
        have := (accumulateAll_lookup_eq_none _ k).mp hl
        rw [hcol] at this
        cases this
    | some l =>
        obtain ⟨hleq, -⟩ := accumulateAll_lookup_some hl
        rw [hleq, hcol]

  refine ⟨by rw [hws]; rfl, by rw [hiv]; exact hlk, ?_⟩
  rw [hiv, mapLookup_averageEstimates, hlk]
  simp

/-- Witness for the amended C2 at `n = window_size = stride = 3` with a
two-point integration outcome. -/
theorem single_window_single_estimate_witness :
    (windowStarts 3 3).length = 1 ∧
    mapLookup (integratedVelocities 3 3
      (fun _ => [(0, (⟨1, 0, 0⟩ : Vec3)), (2, (⟨0, 0, 3⟩ : Vec3))])) 2
      = some [Vec3.norm ⟨0, 0, 3⟩] ∧
    mapLookup (averageEstimates (integratedVelocities 3 3
      (fun _ => [(0, (⟨1, 0, 0⟩ : Vec3)), (2, (⟨0, 0, 3⟩ : Vec3))]))) 2
      = some (Vec3.norm ⟨0, 0, 3⟩) :=
  single_window_single_estimate 3 (by decide) _ (by simp) 2 ⟨0, 0, 3⟩
    (List.mem_cons_of_mem _ (List.mem_cons_self _ _))

/-- Claim C5: for every merged-timeline index present in the accumulator
(`PerTimestampEstimates`), the fused speed estimate produced by the
averaging stage of `fit_motion.cc:221-231` and passed to the smoother
equals the arithmetic mean (sum divided by count) of all velocity
magnitudes collected for that index across all sliding windows. -/
theorem averaged_is_mean_of_collected (outcomes : List (List (Nat × Vec3)))
    (k : Nat) (l : List ℝ)
    (h : mapLookup (accumulateAll outcomes) k = some l) :
    l = collectedEstimates outcomes k ∧
    mapLookup (averageEstimates (accumulateAll outcomes)) k =
      some ((collectedEstimates outcomes k).sum /
        ((collectedEstimates outcomes k).length : ℝ)) := by
  obtain ⟨hl, -⟩ := accumulateAll_lookup_some h
  refine ⟨hl, ?_⟩
  rw [mapLookup_averageEstimates, h, ← hl]
  rfl

/-- Witness for C5 on a single window contributing one estimate at index 0. -/
theorem averaged_is_mean_of_collected_witness :
    [Vec3.norm ⟨1, 2, 2⟩] = collectedEstimates [[(0, (⟨1, 2, 2⟩ : Vec3))]] 0 ∧
    mapLookup (averageEstimates (accumulateAll [[(0, (⟨1, 2, 2⟩ : Vec3))]])) 0 =
      some ((collectedEstimates [[(0, (⟨1, 2, 2⟩ : Vec3))]] 0).sum /
        ((collectedEstimates [[(0, (⟨1, 2, 2⟩ : Vec3))]] 0).length : ℝ)) :=
  averaged_is_mean_of_collected [[(0, ⟨1, 2, 2⟩)]] 0 [Vec3.norm ⟨1, 2, 2⟩] rfl

/-- Claim C6: the final averaged value at every index is invariant under
any permutation of the order in which the sliding windows' estimates are
appended to the accumulator. -/
theorem averaging_insensitive_to_window_order
    (outcomes₁ outcomes₂ : List (List (Nat × Vec3)))
    (hperm : outcomes₁.Perm outcomes₂) (k : Nat) :
    mapLookup (averageEstimates (accumulateAll outcomes₁)) k =
      mapLookup (averageEstimates (accumulateAll outcomes₂)) k := by
  have hcp := collectedEstimates_perm hperm k
  rw [mapLookup_averageEstimates, mapLookup_averageEstimates]
  cases h1 : mapLookup (accumulateAll outcomes₁) k with
  | none =>
      have hc1 := (accumulateAll_lookup_eq_none _ k).mp h1
      have hc2 : collectedEstimates outcomes₂ k = [] :=
        (hcp.symm.trans (hc1 ▸ List.Perm.refl _)).eq_nil
      rw [(accumulateAll_lookup_eq_none _ k).mpr hc2]
  | some l =>
      obtain ⟨hl, hlne⟩ := accumulateAll_lookup_some h1
      cases h2 : mapLookup (accumulateAll outcomes₂) k with
      | none =>
          have hc2 := (accumulateAll_lookup_eq_none _ k).mp h2
          have hc1 : collectedEstimates outcomes₁ k = [] :=
            (hcp.trans (hc2 ▸ List.Perm.refl _)).eq_nil
          exact absurd (hl.trans hc1) hlne
      | some l₂ =>
          obtain ⟨hl₂, -⟩ := accumulateAll_lookup_some h2
          have hp : l.Perm l₂ := by
            rw [hl, hl₂]
            exact hcp
          show some (l.sum / (l.length : ℝ)) = some (l₂.sum / (l₂.length : ℝ))
          rw [hp.sum_eq, hp.length_eq]

/-- Witness for C6: swapping two windows leaves the averaged value at
index 0 unchanged. -/
theorem averaging_insensitive_to_window_order_witness :
    mapLookup (averageEstimates (accumulateAll
      [[(0, (⟨1, 0, 0⟩ : Vec3))], [(0, (⟨0, 2, 0⟩ : Vec3))]])) 0 =
    mapLookup (averageEstimates (accumulateAll
      [[(0, (⟨0, 2, 0⟩ : Vec3))], [(0, (⟨1, 0, 0⟩ : Vec3))]])) 0 :=
  averaging_insensitive_to_window_order _ _
    (List.Perm.swap [(0, (⟨0, 2, 0⟩ : Vec3))] [(0, (⟨1, 0, 0⟩ : Vec3))] []) 0

/-- Claim C9: every index present in the `integrated_velocities` map has a
non-empty estimate list (an index is only ever inserted together with a
pushed value), so dividing the sum by the list size at
`fit_motion.cc:227-230` never divides by zero. -/
theorem present_index_has_nonempty_estimates
    (outcomes : List (List (Nat × Vec3))) (k : Nat) (l : List ℝ)
    (h : mapLookup (accumulateAll outcomes) k = some l) :
    l ≠ [] ∧ 0 < l.length := by
  obtain ⟨-, hne⟩ := accumulateAll_lookup_some h
  exact ⟨hne, List.length_pos.mpr hne⟩

/-- Witness for C9 on a single window contributing one estimate. -/
theorem present_index_has_nonempty_estimates_witness :
    [Vec3.norm ⟨0, 0, 0⟩] ≠ ([] : List ℝ) ∧
      0 < ([Vec3.norm ⟨0, 0, 0⟩] : List ℝ).length :=
  present_index_has_nonempty_estimates [[(0, ⟨0, 0, 0⟩)]] 0 _ rfl

/-- Claim C10: every value appended to the accumulator is the Euclidean
norm of an integrated velocity vector, hence non-negative, and consequently
every averaged per-timestamp speed estimate entering the smoother is
non-negative. -/
theorem estimates_and_averages_nonneg
    (outcomes : List (List (Nat × Vec3))) (k : Nat) (l : List ℝ)
    (h : mapLookup (accumulateAll outcomes) k = some l) :
    (∀ x ∈ l, 0 ≤ x) ∧
    ∀ v, mapLookup (averageEstimates (accumulateAll outcomes)) k = some v →
      0 ≤ v := by
  obtain ⟨hl, -⟩ := accumulateAll_lookup_some h
  have hnn : ∀ x ∈ l, 0 ≤ x := by
    rw [hl]
    exact collectedEstimates_nonneg outcomes k
  refine ⟨hnn, ?_⟩
  intro v hv
  rw [mapLookup_averageEstimates, h] at hv
  have hv' : l.sum / (l.length : ℝ) = v := Option.some.inj hv
  rw [← hv']
  exact div_nonneg (List.sum_nonneg hnn) (Nat.cast_nonneg _)

/-- Witness for C10 on a single window contributing one estimate. -/
theorem estimates_and_averages_nonneg_witness :
    (∀ x ∈ [Vec3.norm ⟨3, 4, 0⟩], 0 ≤ x) ∧
    ∀ v, mapLookup (averageEstimates (accumulateAll
      [[(0, (⟨3, 4, 0⟩ : Vec3))]])) 0 = some v → 0 ≤ v :=
  estimates_and_averages_nonneg [[(0, ⟨3, 4, 0⟩)]] 0 _ rfl

/-! ### Helper lemmas: steering angles and zipped output -/

theorem turnAnglesAux_length (axis : Vec3) :
    ∀ (l : List Timestamped3d) (prevT : Int) (angle : ℝ),
      (turnAnglesAux axis prevT angle l).length = l.length := by
  intro l
  induction l with
  | nil => intro prevT angle; rfl
  | cons r rest ih =>
      intro prevT angle
      simp only [turnAnglesAux, List.length_cons, ih]

theorem getHorizontalTurnAngles_length (rotations : List Timestamped3d)
    (axis : Vec3) :
    (getHorizontalTurnAngles rotations axis).length = rotations.length := by
  cases rotations with
  | nil => rfl
  | cons r rest => exact turnAnglesAux_length axis (r :: rest) r.t 0

theorem zip_getElem? {α β : Type} :
    ∀ (l₁ : List α) (l₂ : List β) (i : Nat),
      (l₁.zip l₂)[i]? = l₁[i]?.bind (fun a => l₂[i]?.map (fun b => (a, b))) := by
  intro l₁
  induction l₁ with
  | nil => intro l₂ i; simp
  | cons a t ih =>
      intro l₂ i
      cases l₂ with
      | nil =>
          cases i with
          | zero => simp
          | succ j =>
              simp only [List.zip_nil_right, List.getElem?_nil,
                List.getElem?_cons_succ, Option.map_none']
              cases t[j]? <;> simp
      | cons b u =>
          cases i with
          | zero => simp
          | succ j => simpa using ih u j

/-- Claim C8: the Rotation-Axis Extractor produces exactly one steering
angle per input rotation sample, in the same order: the output length
equals the rotation input length, and the i-th entry of the written
steering file pairs the i-th rotation sample's timestamp with the i-th
angle. (`GetHorizontalTurnAngles` lives in `calibration/rotation.hpp`,
outside `src/`; it is modelled from the spec, while the `CHECK_EQ` and the
timestamp/value pairing at `fit_motion.cc:144-153` are from the source.) -/
theorem steering_one_angle_per_sample (rotations : List Timestamped3d)
    (axis : Vec3) :
    (getHorizontalTurnAngles rotations axis).length = rotations.length ∧
    ∀ i : Nat,
      ((steeringOutput rotations axis)[i]?).map Prod.fst =
        (rotations[i]?).map Timestamped3d.t ∧
      ((steeringOutput rotations axis)[i]?).map Prod.snd =
        (getHorizontalTurnAngles rotations axis)[i]? := by
  have hlen := getHorizontalTurnAngles_length rotations axis
  refine ⟨hlen, ?_⟩
  intro i
  unfold steeringOutput
  rw [zip_getElem?]
  cases hr : rotations[i]? with
  | none =>
      have hi : rotations.length ≤ i := List.getElem?_eq_none_iff.mp hr
      have ha : (getHorizontalTurnAngles rotations axis)[i]? = none :=
        List.getElem?_eq_none (hlen ▸ hi)
      rw [List.getElem?_map, hr, ha]
      simp
  | some r =>
      have hi : i < rotations.length := (List.getElem?_eq_some_iff.mp hr).1
      have hia : i < (getHorizontalTurnAngles rotations axis).length := by
        rw [hlen]
        exact hi
      have ha := List.getElem?_eq_getElem hia
      rw [List.getElem?_map, hr, ha]
      simp

/-- Claim C3: the pipeline is all-or-nothing with respect to its outputs:
for every run of `main`, either it completes with no fatal error and both
the steering and the velocity output files are written, or it aborts with
a fatal error and neither output file is produced. (External collaborators
are modelled as total functions; per spec section 7, optimizer
non-convergence is non-fatal and only logged.) -/
theorem pipeline_all_or_nothing (cfg : Config)
    (rotEntries accEntries : List Timestamped3d)
    (gpsEntries : List TimestampedVelocity) (axis : Vec3)
    (integrateTraj : Nat → List (Nat × Vec3))
    (mergedEventTimeUsec : Nat → Int)
    (smoothTimeSeries : List ℝ → List ℝ → ℚ → List ℝ) :
    ((runMain cfg rotEntries accEntries gpsEntries axis integrateTraj
        mergedEventTimeUsec smoothTimeSeries).fatal = none ∧
      (runMain cfg rotEntries accEntries gpsEntries axis integrateTraj
        mergedEventTimeUsec smoothTimeSeries).steeringFile.isSome = true ∧
      (runMain cfg rotEntries accEntries gpsEntries axis integrateTraj
        mergedEventTimeUsec smoothTimeSeries).velocitiesFile.isSome = true) ∨
    ((runMain cfg rotEntries accEntries gpsEntries axis integrateTraj
        mergedEventTimeUsec smoothTimeSeries).fatal ≠ none ∧
      (runMain cfg rotEntries accEntries gpsEntries axis integrateTraj
        mergedEventTimeUsec smoothTimeSeries).steeringFile = none ∧
      (runMain cfg rotEntries accEntries gpsEntries axis integrateTraj
        mergedEventTimeUsec smoothTimeSeries).velocitiesFile = none) := by
  unfold runMain
  by_cases hc : sanityChecksOk cfg = true
  · rw [if_pos hc]
    by_cases hre : rotEntries.isEmpty
    · right
      simp [readTimestamp3DData, hre]
    · by_cases hae : accEntries.isEmpty
      · right
        simp [readTimestamp3DData, hre, hae]
      · by_cases hge : gpsEntries.isEmpty
        · right
          simp [readTimestamp3DData, readGpsVelocities, hre, hae, hge]
        · by_cases hchk :
              (getHorizontalTurnAngles rotEntries axis).length =
                rotEntries.length
          · left
            simp [readTimestamp3DData, readGpsVelocities, hre, hae, hge, hchk]
          · right
            simp [readTimestamp3DData, readGpsVelocities, hre, hae, hge, hchk]
  · rw [if_neg hc]
    right
    exact ⟨by simp, rfl, rfl⟩

/-- Claim C4: configuration validation is fail-fast: if
`window_size ≤ 0`, `stride ≤ 0`, `stride > window_size`,
`max_optimizer_iterations ≤ 0` or `smoothing_sigma_seconds ≤ 0`, the run
aborts with a fatal `configError` whose outcome is independent of all
inputs (nothing is read or computed); and under a valid configuration none
of these numeric checks fires. -/
theorem config_checks_fail_fast (cfg : Config) :
    ((cfg.locationsBatchSize ≤ 0 ∨ cfg.locationsShiftStep ≤ 0 ∨
        cfg.locationsBatchSize < cfg.locationsShiftStep ∨
        cfg.optimizationIters ≤ 0 ∨ cfg.postSmoothingSigmaSec ≤ 0) →
      ∀ (rotEntries accEntries : List Timestamped3d)
        (gpsEntries : List TimestampedVelocity) (axis : Vec3)
        (integrateTraj : Nat → List (Nat × Vec3))
        (mergedEventTimeUsec : Nat → Int)
        (smoothTimeSeries : List ℝ → List ℝ → ℚ → List ℝ),
        runMain cfg rotEntries accEntries gpsEntries axis integrateTraj
            mergedEventTimeUsec smoothTimeSeries =
          ⟨none, none, some FitError.configError⟩) ∧
    ((0 < cfg.locationsBatchSize ∧ 0 < cfg.locationsShiftStep ∧
        cfg.locationsShiftStep ≤ cfg.locationsBatchSize ∧
        0 < cfg.optimizationIters ∧ 0 < cfg.postSmoothingSigmaSec) →
      numericChecksOk cfg = true) := by
  constructor
  · intro h rotEntries accEntries gpsEntries axis integrateTraj mt sm
    have hnum : numericChecksOk cfg = false := by
      rcases Bool.eq_false_or_eq_true (numericChecksOk cfg) with hb | hb
      swap
      · exact hb
      · exfalso
        simp only [numericChecksOk, Bool.and_eq_true, decide_eq_true_eq] at hb
        obtain ⟨⟨⟨⟨h1, h2⟩, h3⟩, h4⟩, h5⟩ := hb
        rcases h with h | h | h | h | h
        · omega
        · omega
        · omega
        · linarith
        · linarith
    have hsan : ¬(sanityChecksOk cfg = true) := by
      simp [sanityChecksOk, hnum]
    unfold runMain
    rw [if_neg hsan]
  · intro hv
    obtain ⟨hb, hsh, hle, hit, hsg⟩ := hv
    simp only [numericChecksOk, Bool.and_eq_true, decide_eq_true_eq]
    exact ⟨⟨⟨⟨hit, hb⟩, hsh⟩, hle⟩, hsg⟩

/-- Witness for C4: a configuration with a negative window size aborts
with `configError` for arbitrary inputs, and a valid configuration passes
all numeric checks. -/
theorem config_checks_fail_fast_witness :
    runMain ⟨"r", "a", "l", "v", "s", 500, -1, 5, 1⟩ [] [] [] ⟨0, 0, 0⟩
        (fun _ => []) (fun _ => 0) (fun a _ _ => a) =
      ⟨none, none, some FitError.configError⟩ ∧
    numericChecksOk ⟨"r", "a", "l", "v", "s", 500, 40, 5, 1⟩ = true :=
  ⟨(config_checks_fail_fast _).1 (Or.inl (by decide)) [] [] [] ⟨0, 0, 0⟩
      (fun _ => []) (fun _ => 0) (fun a _ _ => a),
    (config_checks_fail_fast _).2
      ⟨by decide, by decide, by decide, by decide, by decide⟩⟩

/-- Claim C7: if any of the three input streams (rotations, accelerations,
GPS) is empty, the run aborts with a fatal error before any optimization
work, producing no output file; under a valid configuration the error is
specifically the readers' `dataError`. -/
theorem empty_input_fatal (cfg : Config)
    (rotEntries accEntries : List Timestamped3d)
    (gpsEntries : List TimestampedVelocity) (axis : Vec3)
    (integrateTraj : Nat → List (Nat × Vec3))
    (mergedEventTimeUsec : Nat → Int)
    (smoothTimeSeries : List ℝ → List ℝ → ℚ → List ℝ)
    (h : rotEntries = [] ∨ accEntries = [] ∨ gpsEntries = []) :
    (runMain cfg rotEntries accEntries gpsEntries axis integrateTraj
        mergedEventTimeUsec smoothTimeSeries).steeringFile = none ∧
    (runMain cfg rotEntries accEntries gpsEntries axis integrateTraj
        mergedEventTimeUsec smoothTimeSeries).velocitiesFile = none ∧
    (runMain cfg rotEntries accEntries gpsEntries axis integrateTraj
        mergedEventTimeUsec smoothTimeSeries).fatal ≠ none ∧
    (sanityChecksOk cfg = true →
      (runMain cfg rotEntries accEntries gpsEntries axis integrateTraj
        mergedEventTimeUsec smoothTimeSeries).fatal = some FitError.dataError) := by
  unfold runMain
  by_cases hc : sanityChecksOk cfg = true
  · rw [if_pos hc]
    rcases h with h | h | h
    · subst h
      simp [readTimestamp3DData]
    · subst h
      by_cases hre : rotEntries.isEmpty <;>
        simp [readTimestamp3DData, hre]
    · subst h
      by_cases hre : rotEntries.isEmpty <;>
        by_cases hae : accEntries.isEmpty <;>
          simp [readTimestamp3DData, readGpsVelocities, hre, hae]
  · rw [if_neg hc]
    exact ⟨rfl, rfl, by simp, fun hh => absurd hh hc⟩

/-- Witness for C7: a valid configuration with an empty rotation stream
aborts with `dataError` and writes nothing. -/
theorem empty_input_fatal_witness :
    (runMain ⟨"r", "a", "l", "v", "s", 500, 40, 5, 1⟩ [] [⟨0, 0, 0, 0⟩]
        [⟨0, 0⟩] ⟨0, 0, 0⟩ (fun _ => []) (fun _ => 0)
        (fun a _ _ => a)).steeringFile = none ∧
    (runMain ⟨"r", "a", "l", "v", "s", 500, 40, 5, 1⟩ [] [⟨0, 0, 0, 0⟩]
        [⟨0, 0⟩] ⟨0, 0, 0⟩ (fun _ => []) (fun _ => 0)
        (fun a _ _ => a)).velocitiesFile = none ∧
    (runMain ⟨"r", "a", "l", "v", "s", 500, 40, 5, 1⟩ [] [⟨0, 0, 0, 0⟩]
        [⟨0, 0⟩] ⟨0, 0, 0⟩ (fun _ => []) (fun _ => 0)
        (fun a _ _ => a)).fatal ≠ none ∧
    (sanityChecksOk ⟨"r", "a", "l", "v", "s", 500, 40, 5, 1⟩ = true →
      (runMain ⟨"r", "a", "l", "v", "s", 500, 40, 5, 1⟩ [] [⟨0, 0, 0, 0⟩]
        [⟨0, 0⟩] ⟨0, 0, 0⟩ (fun _ => []) (fun _ => 0)
        (fun a _ _ => a)).fatal = some FitError.dataError) :=
  empty_input_fatal _ _ _ _ _ _ _ _ (Or.inl rfl)

end FitMotion
